import Mathlib

/-!
Verification of the asynchronous CV evaluation pipeline of the `cv-reader`
repository: the circuit breaker (`app/services/circuit_breaker.py`), the AI
client and its response parser (`app/services/ai_client.py`), the evaluation
orchestrator (`app/services/evaluation_service.py`) and the Celery job worker
(`app/tasks.py`).  External effects (wall-clock time, HTTP transport, text
extraction, database records) are passed in explicitly; everything else is a
direct translation of the Python control flow.
-/

namespace CvReader

set_option maxRecDepth 1000000

/-- States of `CircuitBreakerState` in `app/services/circuit_breaker.py`:
CLOSED, OPEN (modelled as `opened`, since `open` is a Lean keyword) and
HALF_OPEN. -/
inductive CBState where
  | closed
  | opened
  | halfOpen
deriving DecidableEq

/-- A `CircuitBreaker` instance: its constructor configuration plus the
mutable fields.  Wall-clock time (`time.time()`) is modelled as an integer
number of seconds supplied by the caller.  The `expected_exception` parameter
is not modelled: both `except` arms of `call` invoke `_on_failure` and
re-raise, so every raised exception counts as a failure. -/
structure CircuitBreaker where
  failure_threshold : Nat
  recovery_timeout : Int
  success_threshold : Nat
  timeout : Rat
  state : CBState
  failure_count : Nat
  success_count : Nat
  last_failure_time : Option Int
deriving DecidableEq

/-- The module-level breaker `ai_circuit_breaker` that guards all AI calls
(failure_threshold 5, recovery_timeout 60 s, success_threshold 3). -/
def ai_circuit_breaker : CircuitBreaker :=
  { failure_threshold := 5
    recovery_timeout := 60
    success_threshold := 3
    timeout := 30
    state := .closed
    failure_count := 0
    success_count := 0
    last_failure_time := none }

/-- `CircuitBreaker._should_attempt_reset` evaluated at time `now`. -/
def shouldAttemptReset (cb : CircuitBreaker) (now : Int) : Bool :=
  match cb.last_failure_time with
  | none => false
  | some t => decide (cb.recovery_timeout ≤ now - t)

/-- `CircuitBreaker._on_success`. -/
def onSuccess (cb : CircuitBreaker) : CircuitBreaker :=
  let cb := { cb with failure_count := 0 }
  match cb.state with
  | .halfOpen =>
    let sc := cb.success_count + 1
    if cb.success_threshold ≤ sc then
      { cb with state := .closed, success_count := 0 }
    else
      { cb with success_count := sc }
  | _ => cb

/-- `CircuitBreaker._on_failure` at wall-clock time `now` (the incremented
failure count is compared against the threshold, as in the Python). -/
def onFailure (cb : CircuitBreaker) (now : Int) : CircuitBreaker :=
  let cb := { cb with
    failure_count := cb.failure_count + 1
    last_failure_time := some now
    success_count := 0 }
  match cb.state with
  | .halfOpen => { cb with state := .opened }
  | _ =>
    if cb.failure_threshold ≤ cb.failure_count then
      { cb with state := .opened }
    else cb

/-- Outcome of one `CircuitBreaker.call`: the breaker rejected the call
(`CircuitBreakerOpenException`, wrapped operation never invoked), or the
operation ran and failed (its exception is re-raised), or it succeeded. -/
inductive CallOutcome where
  | rejected
  | failed
  | succeeded
deriving DecidableEq

/-- The lock-protected admission section at the top of `CircuitBreaker.call`:
`none` models raising `CircuitBreakerOpenException` (the operation is not
invoked); `some cb` is the breaker state under which the operation runs. -/
def gate (cb : CircuitBreaker) (now : Int) : Option CircuitBreaker :=
  if cb.state = .opened then
    if shouldAttemptReset cb now then some { cb with state := .halfOpen }
    else none
  else some cb

/-- `CircuitBreaker.call` at time `now`; the wrapped operation is summarised
by whether it raises (`opFails`).  Returns the breaker state after the call
and the outcome. -/
def CircuitBreaker.call (cb : CircuitBreaker) (now : Int) (opFails : Bool) :
    CircuitBreaker × CallOutcome :=
  match gate cb now with
  | none => (cb, .rejected)
  | some cb' =>
    if opFails then (onFailure cb' now, .failed)
    else (onSuccess cb', .succeeded)

/-- A sequence of calls whose wrapped operation always raises, at the given
times. -/
def failCalls (cb : CircuitBreaker) (ts : List Int) : CircuitBreaker :=
  ts.foldl (fun b t => (b.call t true).1) cb

/-- A sequence of calls whose wrapped operation always succeeds, at the given
times. -/
def succCalls (cb : CircuitBreaker) (ts : List Int) : CircuitBreaker :=
  ts.foldl (fun b t => (b.call t false).1) cb

/-- A concrete Open breaker with default thresholds, five recorded failures,
the last at time 0; used to instantiate breaker theorems. -/
def cb0 : CircuitBreaker :=
  { failure_threshold := 5
    recovery_timeout := 60
    success_threshold := 3
    timeout := 30
    state := .opened
    failure_count := 5
    success_count := 0
    last_failure_time := some 0 }

/-! ## Python string primitives used by the AI client -/

/-- ASCII whitespace as recognised by Python's `str.strip()` and by the regex
class `\s` (space, tab, newline, carriage return, vertical tab, form feed). -/
def pyIsSpace (c : Char) : Bool :=
  c = ' ' || c = '\t' || c = '\n' || c = '\r' || c = '\x0b' || c = '\x0c'

/-- `str.strip()` on a character list. -/
def pyStripList (cs : List Char) : List Char :=
  ((cs.dropWhile pyIsSpace).reverse.dropWhile pyIsSpace).reverse

/-- Python `str.strip()`. -/
def pyStrip (s : String) : String :=
  String.mk (pyStripList s.data)

/-- Whether `needle` occurs as a contiguous sublist of the second argument
(Python's `needle in haystack` on strings). -/
def subOccurs (needle : List Char) : List Char → Bool
  | [] => needle.isEmpty
  | c :: rest => needle.isPrefixOf (c :: rest) || subOccurs needle rest

/-- Python `needle in haystack` for strings. -/
def isSubstr (needle haystack : String) : Bool :=
  subOccurs needle.data haystack.data

/-- Python `str.replace(pat, "")` (remove every non-overlapping occurrence,
left to right); the source only ever replaces with the empty string.  `fuel`
bounds recursion and is instantiated with the string length. -/
def removeAllList (fuel : Nat) (pat : List Char) (cs : List Char) : List Char :=
  match fuel, cs with
  | 0, cs => cs
  | _ + 1, [] => []
  | fuel + 1, c :: rest =>
    if pat.isPrefixOf (c :: rest) && !pat.isEmpty then
      removeAllList fuel pat ((c :: rest).drop pat.length)
    else
      c :: removeAllList fuel pat rest

/-- `str.replace(pat, "")`. -/
def pyRemoveAll (pat s : String) : String :=
  String.mk (removeAllList (s.length + 1) pat.data s.data)

/-- `str.find(c)` for a single character (`none` models `-1`). -/
def findIdx (c : Char) (cs : List Char) : Option Nat :=
  cs.findIdx? (· = c)

/-- `str.rfind(c)` for a single character (`none` models `-1`). -/
def rfindIdx (c : Char) (cs : List Char) : Option Nat :=
  (cs.reverse.findIdx? (· = c)).map (fun i => cs.length - 1 - i)

/-! ## JSON values

`json.loads` results are modelled by `Json`.  Python distinguishes `int` and
`float`; both are modelled as `Rat` (the claims under study never depend on
the distinction).  Objects are association lists built with last-assignment-
wins semantics, matching `dict`. -/

inductive Json where
  | null
  | bool (b : Bool)
  | num (q : Rat)
  | str (s : String)
  | arr (elems : List Json)
  | obj (entries : List (String × Json))

/-- Key lookup in an object's entry list (entries are deduplicated on
construction, so first match equals Python's `dict` lookup). -/
def objFind : List (String × Json) → String → Option Json
  | [], _ => none
  | (k, v) :: rest, key => if k = key then some v else objFind rest key

/-- `d[key] = v` on an entry list: replace in place or append, as a Python
`dict` assignment does. -/
def objSetEntries : List (String × Json) → String → Json → List (String × Json)
  | [], k, v => [(k, v)]
  | (k', v') :: rest, k, v =>
    if k' = k then (k', v) :: rest else (k', v') :: objSetEntries rest k v

/-- Python type name of a value, for TypeError messages (ints and floats are
both `Json.num`; the float name is used — no claim inspects these texts). -/
def pyTypeName : Json → String
  | .null => "NoneType"
  | .bool _ => "bool"
  | .num _ => "float"
  | .str _ => "str"
  | .arr _ => "list"
  | .obj _ => "dict"

/-- Python truthiness (`if not parsed_response:` and `if result['error']:`). -/
def pyTruthy : Json → Bool
  | .null => false
  | .bool b => b
  | .num q => decide (q ≠ 0)
  | .str s => decide (s ≠ "")
  | .arr xs => !xs.isEmpty
  | .obj kvs => !kvs.isEmpty

/-- Python `needle in j` for a string needle: key membership on dicts,
element membership on lists, substring test on strings; a TypeError for the
remaining types (`.error` carries the exception message). -/
def pyIn (needle : String) : Json → Except String Bool
  | .obj kvs => .ok (objFind kvs needle).isSome
  | .arr xs => .ok (xs.any fun e => match e with | .str s => s = needle | _ => false)
  | .str s => .ok (isSubstr needle s)
  | j => .error ("argument of type \x27" ++ pyTypeName j ++ "\x27 is not iterable")

/-- Python `j[key]` for a string key: dict lookup, TypeError otherwise
(message texts modelled after CPython). -/
def pyGetItem (j : Json) (key : String) : Except String Json :=
  match j with
  | .obj kvs =>
    match objFind kvs key with
    | some v => .ok v
    | none => .error ("KeyError: " ++ key)
  | .arr _ => .error "list indices must be integers or slices, not str"
  | .str _ => .error "string indices must be integers, not \x27str\x27"
  | j => .error ("\x27" ++ pyTypeName j ++ "\x27 object is not subscriptable")

/-- Python `j[key] = v`: only dicts support string-keyed assignment. -/
def pySetItem (j : Json) (key : String) (v : Json) : Except String Json :=
  match j with
  | .obj kvs => .ok (.obj (objSetEntries kvs key v))
  | j => .error ("\x27" ++ pyTypeName j ++ "\x27 object does not support item assignment")

/-- Python `len(j)`: TypeError on unsized values. -/
def pyLen (j : Json) : Except String Nat :=
  match j with
  | .str s => .ok s.length
  | .arr xs => .ok xs.length
  | .obj kvs => .ok kvs.length
  | j => .error ("object of type \x27" ++ pyTypeName j ++ "\x27 has no len()")

/-- Decimal rendering of a rational for interpolated messages; exact only for
integers (no claim inspects the non-integer case). -/
def ratStr (q : Rat) : String :=
  if q.den = 1 then toString q.num else toString q.num ++ "/" ++ toString q.den

/-- Python `str(j)` as used in f-string interpolation of error messages
(container rendering abbreviated — no claim inspects it). -/
def pyStr : Json → String
  | .null => "None"
  | .bool true => "True"
  | .bool false => "False"
  | .num q => ratStr q
  | .str s => s
  | .arr _ => "[...]"
  | .obj _ => "\x7b...\x7d"

/-! ## `json.loads`

A recursive-descent parser for the JSON grammar accepted by Python's
`json.loads` (strict mode): the four JSON whitespace characters, objects,
arrays, strings with the standard escapes and `\uXXXX` (surrogate pairs are
not combined), numbers `-?(0|[1-9]\d*)(\.\d+)?([eE][+-]?\d+)?`, and the
literals `true`/`false`/`null`; trailing non-whitespace input is rejected
("Extra data").  The `NaN`/`Infinity` extensions are outside the model. -/

/-- JSON structural whitespace (space, tab, newline, carriage return). -/
def jsonWs (c : Char) : Bool :=
  c = ' ' || c = '\t' || c = '\n' || c = '\r'

/-- Value of a hexadecimal digit. -/
def hexVal (c : Char) : Option Nat :=
  if '0' ≤ c && c ≤ '9' then some (c.toNat - 48)
  else if 'a' ≤ c && c ≤ 'f' then some (c.toNat - 87)
  else if 'A' ≤ c && c ≤ 'F' then some (c.toNat - 55)
  else none

/-- Body of a JSON string, after the opening quote; returns the decoded
string and the input following the closing quote.  Raw control characters
are rejected, as in strict-mode `json.loads`. -/
def parseJStringAux (acc : List Char) : List Char → Option (String × List Char)
  | [] => none
  | '"' :: rest => some (String.mk acc.reverse, rest)
  | '\\' :: '"' :: rest => parseJStringAux ('"' :: acc) rest
  | '\\' :: '\\' :: rest => parseJStringAux ('\\' :: acc) rest
  | '\\' :: '/' :: rest => parseJStringAux ('/' :: acc) rest
  | '\\' :: 'b' :: rest => parseJStringAux ('\x08' :: acc) rest
  | '\\' :: 'f' :: rest => parseJStringAux ('\x0c' :: acc) rest
  | '\\' :: 'n' :: rest => parseJStringAux ('\n' :: acc) rest
  | '\\' :: 'r' :: rest => parseJStringAux ('\r' :: acc) rest
  | '\\' :: 't' :: rest => parseJStringAux ('\t' :: acc) rest
  | '\\' :: 'u' :: h1 :: h2 :: h3 :: h4 :: rest =>
    (match hexVal h1, hexVal h2, hexVal h3, hexVal h4 with
     | some a, some b, some c', some d =>
       parseJStringAux (Char.ofNat (((a * 16 + b) * 16 + c') * 16 + d) :: acc) rest
     | _, _, _, _ => none)
  | '\\' :: _ => none
  | c :: rest =>
    if c.toNat < 32 then none
    else parseJStringAux (c :: acc) rest

/-- Leading decimal digits of the input, and the rest. -/
def takeDigits : List Char → List Char × List Char
  | [] => ([], [])
  | c :: rest =>
    if c.isDigit then
      let (ds, r) := takeDigits rest
      (c :: ds, r)
    else ([], c :: rest)

/-- Numeric value of a digit list. -/
def digitsToNat (ds : List Char) : Nat :=
  ds.foldl (fun a c => a * 10 + (c.toNat - 48)) 0

/-- Exact rational value of a decimal literal with optional sign, integer
digits, fraction digits and a base-10 exponent.  (Python represents float
literals as binary doubles; the model keeps the exact decimal value — no
claim depends on rounding.) -/
def ratOfParts (neg : Bool) (intDs fracDs : List Char) (e : Int) : Rat :=
  let k := fracDs.length
  let base : Int := (digitsToNat intDs : Int) * (10 : Int) ^ k + (digitsToNat fracDs : Int)
  let base := if neg then -base else base
  if 0 ≤ e then mkRat (base * (10 : Int) ^ e.toNat) ((10 : Nat) ^ k)
  else mkRat base ((10 : Nat) ^ k * (10 : Nat) ^ (-e).toNat)

/-- The JSON number grammar `-?(0|[1-9]\d*)(\.\d+)?([eE][+-]?\d+)?`,
evaluated exactly as a rational. -/
def parseJNumber (cs : List Char) : Option (Rat × List Char) :=
  let (neg, cs1) :=
    match cs with
    | '-' :: rest => (true, rest)
    | _ => (false, cs)
  match cs1 with
  | [] => none
  | c :: rest =>
    if !c.isDigit then none
    else
      let (intDs, cs2) :=
        if c = '0' then ([c], rest)
        else takeDigits (c :: rest)
      let (fracDs, cs3) :=
        match cs2 with
        | '.' :: r =>
          let (ds, r') := takeDigits r
          (ds, if ds.isEmpty then cs2 else r')
        | _ => ([], cs2)
      if (match cs2 with | '.' :: _ => fracDs.isEmpty | _ => false) then none
      else
        let expParse : Option (Int × List Char) :=
          match cs3 with
          | 'e' :: r | 'E' :: r =>
            let (esign, r1) :=
              match r with
              | '+' :: r' => ((1 : Int), r')
              | '-' :: r' => ((-1 : Int), r')
              | _ => ((1 : Int), r)
            let (eds, r2) := takeDigits r1
            if eds.isEmpty then none else some (esign * digitsToNat eds, r2)
          | _ => some (0, cs3)
        match expParse with
        | none =>
          -- a bare exponent marker is not part of the number; `json.loads`
          -- would stop before the `e`, leaving it as trailing data
          some (ratOfParts neg intDs fracDs 0, cs3)
        | some (e, cs4) =>
          some (ratOfParts neg intDs fracDs e, cs4)

mutual

/-- One JSON value (leading whitespace skipped), returning the rest of the
input; `fuel` dominates the nesting depth and is instantiated from the input
length. -/
def parseJValue : Nat → List Char → Option (Json × List Char)
  | 0, _ => none
  | fuel + 1, cs =>
    match cs.dropWhile jsonWs with
    | [] => none
    | c :: rest =>
      if c = '"' then
        match parseJStringAux [] rest with
        | some (s, r) => some (.str s, r)
        | none => none
      else if c = '\x7b' then
        match (rest.dropWhile jsonWs) with
        | '\x7d' :: r => some (.obj [], r)
        | _ => parseJMembers fuel [] rest
      else if c = '[' then
        match (rest.dropWhile jsonWs) with
        | ']' :: r => some (.arr [], r)
        | _ => parseJElems fuel [] rest
      else if ['t', 'r', 'u', 'e'].isPrefixOf (c :: rest) then
        some (.bool true, (c :: rest).drop 4)
      else if ['f', 'a', 'l', 's', 'e'].isPrefixOf (c :: rest) then
        some (.bool false, (c :: rest).drop 5)
      else if ['n', 'u', 'l', 'l'].isPrefixOf (c :: rest) then
        some (.null, (c :: rest).drop 4)
      else
        match parseJNumber (c :: rest) with
        | some (q, r) => some (.num q, r)
        | none => none

/-- Members of an object after the opening brace (at least one member). -/
def parseJMembers : Nat → List (String × Json) → List Char → Option (Json × List Char)
  | 0, _, _ => none
  | fuel + 1, acc, cs =>
    match cs.dropWhile jsonWs with
    | '"' :: rest =>
      match parseJStringAux [] rest with
      | some (k, r1) =>
        match r1.dropWhile jsonWs with
        | ':' :: r2 =>
          match parseJValue fuel r2 with
          | some (v, r3) =>
            let acc' := objSetEntries acc k v
            match r3.dropWhile jsonWs with
            | ',' :: r4 => parseJMembers fuel acc' r4
            | '\x7d' :: r4 => some (.obj acc', r4)
            | _ => none
          | none => none
        | _ => none
      | none => none
    | _ => none

/-- Elements of an array after the opening bracket (at least one element). -/
def parseJElems : Nat → List Json → List Char → Option (Json × List Char)
  | 0, _, _ => none
  | fuel + 1, acc, cs =>
    match parseJValue fuel cs with
    | some (v, r1) =>
      match r1.dropWhile jsonWs with
      | ',' :: r2 => parseJElems fuel (acc ++ [v]) r2
      | ']' :: r2 => some (.arr (acc ++ [v]), r2)
      | _ => none
    | none => none

end

/-- `json.loads`: parse one value and require only whitespace after it. -/
def jsonLoads (s : String) : Option Json :=
  match parseJValue (s.length + 2) s.data with
  | some (j, rest) => if (rest.dropWhile jsonWs).isEmpty then some j else none
  | none => none

/-! ## The two regular expressions of `_parse_ai_response`

`json_block_pattern = r'```(?:json)?\s*\n(.*?)\n```'` with `re.DOTALL`, and
`json_object_pattern = r'\{[^{}]*(?:\{[^{}]*\}[^{}]*)*\}'`, both used through
`re.search` (leftmost match).  The matchers below reproduce the backtracking
behaviour of the Python engine for these two concrete patterns. -/

/-- The three-backtick fence. -/
def backticks3 : List Char := ['\x60', '\x60', '\x60']

/-- The characters of `json`. -/
def jsonLit : List Char := ['j', 's', 'o', 'n']

/-- `"```json"` as a string (for the `in` tests on the rationale field). -/
def fenceJsonStr : String := String.mk (backticks3 ++ jsonLit)

/-- `"```"` as a string. -/
def fenceStr : String := String.mk backticks3

/-- Split at the earliest occurrence of `"\n```"`: the characters before the
newline, and the input after the closing fence.  This is the lazy
`(.*?)\n```` ``` tail of the fenced-block pattern under DOTALL. -/
def splitAtNlFence : List Char → Option (List Char × List Char)
  | [] => none
  | c :: rest =>
    if c = '\n' && backticks3.isPrefixOf rest then
      some ([], rest.drop 3)
    else
      match splitAtNlFence rest with
      | some (mid, after) => some (c :: mid, after)
      | none => none

/-- Indices of newline characters within a whitespace run. -/
def nlPositions (ws : List Char) : List Nat :=
  (List.range ws.length).filter (fun i => ws.getD i ' ' = '\n')

/-- Try the backtracking candidates for `\s*\n`: `k` is the number of
whitespace characters consumed by `\s*`, tried from largest to smallest, each
followed by a literal newline at position `k` and then the lazy middle. -/
def tryNlCandidates (rest : List Char) : List Nat → Option (List Char)
  | [] => none
  | k :: ks =>
    match splitAtNlFence (rest.drop (k + 1)) with
    | some (mid, _) => some mid
    | none => tryNlCandidates rest ks

/-- Match `\s*\n(.*?)\n```` ``` against `rest`, returning group 1.  The
literal `\n` after `\s*` is the newline at the chosen position `k`, so the
lazy middle starts at `k + 1`. -/
def fenceTailMatch (rest : List Char) : Option (List Char) :=
  let ws := rest.takeWhile pyIsSpace
  tryNlCandidates rest ((nlPositions ws).reverse)

/-- Match the fenced-block pattern anchored at the start of `cs`, returning
group 1; `(?:json)?` is greedy, so the `json`-consuming alternative is tried
first. -/
def fencedMatchAt (cs : List Char) : Option (List Char) :=
  if backticks3.isPrefixOf cs then
    let rest := cs.drop 3
    match (if jsonLit.isPrefixOf rest then fenceTailMatch (rest.drop 4) else none) with
    | some g => some g
    | none => fenceTailMatch rest
  else none

/-- Leftmost search for the fenced-block pattern. -/
def searchFencedAux : List Char → Option (List Char)
  | [] => none
  | c :: rest =>
    match fencedMatchAt (c :: rest) with
    | some g => some g
    | none => searchFencedAux rest

/-- `re.search(json_block_pattern, s, re.DOTALL)`, returning `group(1)`. -/
def searchFenced (s : String) : Option String :=
  (searchFencedAux s.data).map String.mk

/-- Characters other than the two braces (the class `[^{}]`). -/
def nonBrace (c : Char) : Bool :=
  c ≠ '\x7b' && c ≠ '\x7d'

/-- Length matched by `(?:\{[^{}]*\}[^{}]*)*\}` when positioned after a
maximal non-brace run, `n` characters into the match.  All quantifiers of the
object pattern are forced (a shorter run leaves a non-brace where a brace is
required), so the engine's behaviour is deterministic: iterate complete
one-level groups while the next character is `{`, then require `}`. -/
def objPatLoopLen (fuel : Nat) (n : Nat) (cs : List Char) : Option Nat :=
  match fuel, cs with
  | _, '\x7d' :: _ => some (n + 1)
  | fuel + 1, '\x7b' :: rest =>
    let b := rest.takeWhile nonBrace
    match rest.drop b.length with
    | '\x7d' :: rest2 =>
      let a2 := rest2.takeWhile nonBrace
      objPatLoopLen fuel (n + 1 + b.length + 1 + a2.length) (rest2.drop a2.length)
    | _ => none
  | _, _ => none

/-- Length of a match of the object pattern anchored at the start of `cs`. -/
def objPatLen (cs : List Char) : Option Nat :=
  match cs with
  | '\x7b' :: rest =>
    let a := rest.takeWhile nonBrace
    objPatLoopLen (cs.length + 1) (1 + a.length) (rest.drop a.length)
  | _ => none

/-- Leftmost search for the object pattern, returning the matched text. -/
def searchObjAux : List Char → Option (List Char)
  | [] => none
  | c :: rest =>
    match objPatLen (c :: rest) with
    | some n => some ((c :: rest).take n)
    | none => searchObjAux rest

/-- `re.search(json_object_pattern, s, re.DOTALL)`, returning `group(0)`. -/
def searchObjPat (s : String) : Option String :=
  (searchObjAux s.data).map String.mk

/-! ## `OpenRouterClient._parse_ai_response` -/

/-- The nested-rationale stage of `_parse_ai_response` (lines 181–209): if
the parsed value is a dict whose `rationale` is a string containing a fence,
try to extract and parse a fenced JSON block from it; a nested block with
both `score` and `matches` replaces the parsed value wholesale, one with only
`score` has its `score` (and `gaps`, when present) copied over the outer
fields; a nested `json.JSONDecodeError` is swallowed.  `.error` carries the
message of an uncaught exception (a `TypeError` from `in`/`[]` on a non-dict
nested value). -/
def handleNestedRationale (parsed : Json) : Except String Json :=
  match parsed with
  | .obj kvs =>
    match objFind kvs "rationale" with
    | some (.str rationale) =>
      if isSubstr fenceJsonStr rationale || isSubstr fenceStr rationale then
        match searchFenced rationale with
        | some g =>
          match jsonLoads (pyStrip g) with
          | some nested => do
            let hasScore ← pyIn "score" nested
            if hasScore then do
              let hasMatches ← pyIn "matches" nested
              if hasMatches then
                pure nested
              else do
                let sv ← pyGetItem nested "score"
                let p1 ← pySetItem parsed "score" sv
                let hasMatches' ← pyIn "matches" nested
                let p2 ←
                  if hasMatches' then do
                    let mv ← pyGetItem nested "matches"
                    pySetItem p1 "matches" mv
                  else pure p1
                let hasGaps ← pyIn "gaps" nested
                if hasGaps then do
                  let gv ← pyGetItem nested "gaps"
                  pySetItem p2 "gaps" gv
                else pure p2
            else pure parsed
          | none => pure parsed
        | none => pure parsed
      else pure parsed
    | some _ => pure parsed
    | none => pure parsed
  | _ => pure parsed

/-- The repair branch of `_parse_ai_response` (lines 214–225): strip fence
markers, cut to the outermost braces, and re-parse once; any failure yields
`None`. -/
def repairParse (json_str : String) : Option Json :=
  let cleaned := pyStrip (pyRemoveAll fenceStr (pyRemoveAll fenceJsonStr json_str))
  match findIdx '\x7b' cleaned.data, rfindIdx '\x7d' cleaned.data with
  | some s, some e =>
    if s < e then
      jsonLoads (String.mk ((cleaned.data.drop s).take (e - s + 1)))
    else none
  | _, _ => none

/-- `OpenRouterClient._parse_ai_response`: pick the JSON candidate (fenced
block, else first object-pattern match, else the whole input), parse it, and
apply the nested-rationale stage; on a parse failure, run the repair branch.
`.ok none` models returning `None`; `.error` an uncaught exception. -/
def parse_ai_response (ai_response : String) : Except String (Option Json) :=
  let json_str :=
    match searchFenced ai_response with
    | some g => pyStrip g
    | none =>
      match searchObjPat ai_response with
      | some m => pyStrip m
      | none => pyStrip ai_response
  match jsonLoads json_str with
  | some parsed =>
    match handleNestedRationale parsed with
    | .ok p => .ok (some p)
    | .error e => .error e
  | none => .ok (repairParse json_str)

/-! ## `OpenRouterClient.evaluate_cv` -/

/-- Python `float(x)` on a string: optional surrounding whitespace and sign,
then `d+[.d*]`, `.d+` or `d+`, with an optional exponent.  The
`inf`/`nan`/underscore forms accepted by CPython are outside the model (no
claim exercises them). -/
def pyFloatOfString (s : String) : Option Rat :=
  let cs := pyStripList s.data
  let (neg, cs1) :=
    match cs with
    | '-' :: rest => (true, rest)
    | '+' :: rest => (false, rest)
    | _ => (false, cs)
  let (intDs, cs2) := takeDigits cs1
  let (fracDs, cs3) :=
    match cs2 with
    | '.' :: r => takeDigits r
    | _ => ([], cs2)
  if intDs.isEmpty && fracDs.isEmpty then none
  else
    let expParse : Option Int :=
      match cs3 with
      | [] => some 0
      | 'e' :: r | 'E' :: r =>
        let (esign, r1) :=
          match r with
          | '+' :: r' => ((1 : Int), r')
          | '-' :: r' => ((-1 : Int), r')
          | _ => ((1 : Int), r)
        let (eds, r2) := takeDigits r1
        if eds.isEmpty || !r2.isEmpty then none else some (esign * digitsToNat eds)
      | _ => none
    match expParse with
    | none => none
    | some e => some (ratOfParts neg intDs fracDs e)

/-- Python `float(x)` as used to coerce the `score` field: numbers pass
through, booleans become 0/1, numeric strings are parsed; `None`, lists and
dicts raise (`none` models the ValueError/TypeError). -/
def pyFloat : Json → Option Rat
  | .num q => some q
  | .bool b => some (if b then 1 else 0)
  | .str s => pyFloatOfString s
  | _ => none

/-- Outcome of the HTTP POST to OpenRouter, as seen by
`_openrouter_evaluation`: a transport timeout, another request failure (its
message), or a 2xx response whose `choices[0].message.content` is given. -/
inductive Transport where
  | timeout
  | reqError (msg : String)
  | ok (content : String)

/-- A raised Python exception, by class: the AI client raises everything as
plain `Exception`; `CircuitBreakerOpenException` is the breaker's own
rejection. -/
inductive PyErr where
  | exc (msg : String)
  | circuitOpen (msg : String)
deriving DecidableEq

/-- The exception's class name, the only kind information a caller could
dispatch on. -/
def pyErrClass : PyErr → String
  | .exc _ => "Exception"
  | .circuitOpen _ => "CircuitBreakerOpenException"

/-- `str(e)` of a raised exception. -/
def pyErrMsg : PyErr → String
  | .exc m => m
  | .circuitOpen m => m

/-- The catch-all at the bottom of `_openrouter_evaluation` re-raises any
exception as `Exception("AI evaluation failed: " + str(e))`. -/
def wrapFail (m : String) : PyErr :=
  .exc ("AI evaluation failed: " ++ m)

/-- The message of the `UnboundLocalError` raised when the
`except (ValueError, TypeError)` handler around the score coercion references
`score_value` after `parsed_response['score']` itself raised (text follows
CPython 3.11+). -/
def unboundLocalMsg : String :=
  "cannot access local variable \x27score_value\x27 where it is not associated with a value"

/-- The body of `_openrouter_evaluation` in `OpenRouterClient.evaluate_cv`:
transport failures raise retagged `Exception`s; on a response, the content is
stripped, parsed, checked to be truthy, checked for the four required fields,
and the score is coerced with `float`; the closing log line calls `len` on
`matches` and `gaps`.  Every failure is raised as plain `Exception` (the
catch-all prefixes unexpected errors with `AI evaluation failed: `). -/
def openrouterEvaluation (t : Transport) : Except PyErr Json :=
  match t with
  | .timeout => .error (.exc "AI service timeout")
  | .reqError m => .error (.exc ("AI service error: " ++ m))
  | .ok content =>
    let ai_response := pyStrip content
    match parse_ai_response ai_response with
    | .error m => .error (wrapFail m)
    | .ok parsedOpt =>
      let parsed? :=
        match parsedOpt with
        | none => none
        | some p => if pyTruthy p then some p else none
      match parsed? with
      | none =>
        .error (wrapFail "AI returned invalid JSON response that could not be parsed")
      | some parsed =>
        match pyIn "score" parsed with
        | .error m => .error (wrapFail m)
        | .ok false =>
          .error (wrapFail "AI response missing required \x27score\x27 field")
        | .ok true =>
        match pyIn "rationale" parsed with
        | .error m => .error (wrapFail m)
        | .ok false =>
          .error (wrapFail "AI response missing required \x27rationale\x27 field")
        | .ok true =>
        match pyIn "matches" parsed with
        | .error m => .error (wrapFail m)
        | .ok false =>
          .error (wrapFail "AI response missing required \x27matches\x27 field")
        | .ok true =>
        match pyIn "gaps" parsed with
        | .error m => .error (wrapFail m)
        | .ok false =>
          .error (wrapFail "AI response missing required \x27gaps\x27 field")
        | .ok true =>
        match pyGetItem parsed "score" with
        | .error _ => .error (wrapFail unboundLocalMsg)
        | .ok score_value =>
        match pyFloat score_value with
        | none =>
          .error (wrapFail
            ("AI response \x27score\x27 field is not a valid number: " ++ pyStr score_value))
        | some q =>
        match pySetItem parsed "score" (.num q) with
        | .error m => .error (wrapFail m)
        | .ok parsed2 =>
        match pyGetItem parsed2 "matches" with
        | .error m => .error (wrapFail m)
        | .ok mv =>
        match pyLen mv with
        | .error m => .error (wrapFail m)
        | .ok _ =>
        match pyGetItem parsed2 "gaps" with
        | .error m => .error (wrapFail m)
        | .ok gv =>
        match pyLen gv with
        | .error m => .error (wrapFail m)
        | .ok _ => .ok parsed2

/-- `OpenRouterClient.evaluate_cv`: run `_openrouter_evaluation` through the
module-level circuit breaker; a `CircuitBreakerOpenException` is caught and
re-raised as a plain `Exception`.  Returns the breaker state after the call
together with the outcome. -/
def OpenRouterClient.evaluate_cv (cb : CircuitBreaker) (now : Int) (t : Transport) :
    CircuitBreaker × Except PyErr Json :=
  match gate cb now with
  | none =>
    (cb, .error (.exc "AI service temporarily unavailable - circuit breaker activated"))
  | some cb' =>
    match openrouterEvaluation t with
    | .ok j => (onSuccess cb', .ok j)
    | .error e => (onFailure cb' now, .error e)

/-! ## `CVEvaluationService` (the orchestrator) -/

/-- The dict `{'error': msg, 'score': 0.0}` returned by
`CVEvaluationService.evaluate_cv` on any failure. -/
def serviceErrorDict (msg : String) : Json :=
  .obj [("error", .str msg), ("score", .num 0)]

/-- Result of one orchestrator invocation: the breaker state afterwards, the
outcome (`Except` so that propagation of an exception is expressible — the
catch-all makes the implementation always return `.ok`), and whether the AI
client was invoked. -/
structure ServiceRun where
  cb : CircuitBreaker
  result : Except PyErr Json
  aiCalled : Bool

/-- `CVEvaluationService.evaluate_cv`: the text extracted by
`CVParserService` is an input (`none` models `None`); a falsy extraction
yields the error dict without calling the AI client; any exception raised by
the AI client is caught and converted to an error dict carrying `str(e)`. -/
def CVEvaluationService.evaluate_cv (cb : CircuitBreaker) (now : Int)
    (extracted : Option String) (t : Transport) : ServiceRun :=
  match extracted with
  | none => ⟨cb, .ok (serviceErrorDict "Failed to extract text from CV"), false⟩
  | some text =>
    if text = "" then
      ⟨cb, .ok (serviceErrorDict "Failed to extract text from CV"), false⟩
    else
      match OpenRouterClient.evaluate_cv cb now t with
      | (cb', .ok j) => ⟨cb', .ok j, true⟩
      | (cb', .error e) => ⟨cb', .ok (serviceErrorDict (pyErrMsg e)), true⟩

/-! ## The Celery worker `evaluate_cv_task` (`app/tasks.py`) -/

/-- `CVEvaluationRequest.STATUS_PENDING`. -/
def STATUS_PENDING : Nat := 0

/-- `CVEvaluationRequest.STATUS_PROCESSING`. -/
def STATUS_PROCESSING : Nat := 1

/-- `CVEvaluationRequest.STATUS_COMPLETED`. -/
def STATUS_COMPLETED : Nat := 2

/-- `CVEvaluationRequest.STATUS_FAILED`. -/
def STATUS_FAILED : Nat := 3

/-- The persisted fields of a `CVEvaluationRequest` that the worker writes:
`status`, `ai_response`, `score` and `error_message` (`none` = field unset). -/
structure JobRecord where
  status : Nat
  ai_response : Option Json
  score : Option Json
  error_message : Option Json

/-- External outcomes of one task attempt: the document lookup/download
(steps that raise propagate their message), the text extraction, and the AI
transport. -/
structure AttemptEnv where
  fetch : Except String Unit
  extracted : Option String
  transport : Transport

/-- Observable outcome of one `evaluate_cv_task` invocation: the persisted
record afterwards (updates on a missing record are no-ops), the breaker, the
retry countdown when `self.retry(countdown=…)` was raised, and the task's
return value when it returned normally. -/
structure TaskResult where
  job : Option JobRecord
  cb : CircuitBreaker
  retryCountdown : Option Int
  returned : Option Json

/-- Message of the `DoesNotExist` raised by
`CVEvaluationRequest.objects.get` on a missing id. -/
def doesNotExistMsg : String :=
  "CVEvaluationRequest matching query does not exist."

/-- The worker's generic `except Exception` block (tasks.py lines 96–108):
persist `Failed` with `str(exc)`, then retry with countdown
`60 * 2 ** retries` while `retries < max_retries`, else return the error
payload. -/
def taskExceptBlock (retries maxRetries : Nat) (job : Option JobRecord)
    (cb : CircuitBreaker) (msg : String) : TaskResult :=
  let job' := job.map fun r =>
    { r with status := STATUS_FAILED, error_message := some (.str msg) }
  if retries < maxRetries then
    ⟨job', cb, some ((60 : Int) * 2 ^ retries), none⟩
  else
    ⟨job', cb, none, some (.obj [("error", .str msg)])⟩

/-- The worker's failed-result branch (tasks.py lines 72–80): persist
`Failed` together with the whole result dict and its score, and return the
result without retrying. -/
def taskFailedBranch (rec : JobRecord) (cb : CircuitBreaker) (result : Json)
    (scoreOpt : Option Json) (errVal : Json) : TaskResult :=
  let rec' := { rec with
    status := STATUS_FAILED
    ai_response := some result
    score := scoreOpt
    error_message := some errVal }
  ⟨some rec', cb, none, some result⟩

/-- The worker's success branch (tasks.py lines 82–94): require a `score`
field (else raise into the except block), persist `Completed` with the result
and score, clearing `error_message`, and return the result. -/
def taskSuccessBranch (retries maxRetries : Nat) (rec : JobRecord)
    (cb : CircuitBreaker) (result : Json) : TaskResult :=
  match pyIn "score" result with
  | .error m => taskExceptBlock retries maxRetries (some rec) cb m
  | .ok false =>
    taskExceptBlock retries maxRetries (some rec) cb
      "AI evaluation result missing \x27score\x27 field"
  | .ok true =>
    match pyGetItem result "score" with
    | .error m => taskExceptBlock retries maxRetries (some rec) cb m
    | .ok sv =>
      let rec' := { rec with
        status := STATUS_COMPLETED
        ai_response := some result
        score := some sv
        error_message := none }
      ⟨some rec', cb, none, some result⟩

/-- One invocation of `evaluate_cv_task` at retry count `retries`
(`self.request.retries`), `maxRetries` = 3 from `@shared_task(max_retries=3)`.
The first `update_one` sets `Processing` (a no-op on a missing record); a
missing record then raises `DoesNotExist` from `objects.get`, landing in the
generic except block like every other exception. -/
def evaluate_cv_task (retries maxRetries : Nat) (job : Option JobRecord)
    (cb : CircuitBreaker) (now : Int) (env : AttemptEnv) : TaskResult :=
  let job1 := job.map fun r => { r with status := STATUS_PROCESSING }
  match job1 with
  | none => taskExceptBlock retries maxRetries none cb doesNotExistMsg
  | some rec =>
    match env.fetch with
    | .error m => taskExceptBlock retries maxRetries (some rec) cb m
    | .ok _ =>
      let run := CVEvaluationService.evaluate_cv cb now env.extracted env.transport
      match run.result with
      | .error e =>
        -- unreachable: the orchestrator's catch-all never lets an exception out
        taskExceptBlock retries maxRetries (some rec) run.cb (pyErrMsg e)
      | .ok result =>
        match pyIn "error" result with
        | .error m => taskExceptBlock retries maxRetries (some rec) run.cb m
        | .ok false => taskSuccessBranch retries maxRetries rec run.cb result
        | .ok true =>
          match pyGetItem result "error" with
          | .error m => taskExceptBlock retries maxRetries (some rec) run.cb m
          | .ok errVal =>
            if pyTruthy errVal then
              match pyIn "score" result with
              | .error m => taskExceptBlock retries maxRetries (some rec) run.cb m
              | .ok true =>
                match pyGetItem result "score" with
                | .error m => taskExceptBlock retries maxRetries (some rec) run.cb m
                | .ok sv => taskFailedBranch rec run.cb result (some sv) errVal
              | .ok false => taskFailedBranch rec run.cb result none errVal
            else taskSuccessBranch retries maxRetries rec run.cb result

/-- Drive the retry loop: run attempts, following each `self.retry` with the
next invocation at `retries + 1`, collecting the scheduled countdowns.
Returns the final record, breaker, countdown list, final return value, and
the number of attempts executed.  `fuel` bounds the loop and is instantiated
above `maxRetries`. -/
def runAttempts : Nat → Nat → Nat → Option JobRecord → CircuitBreaker →
    (Nat → Int) → (Nat → AttemptEnv) →
    Option JobRecord × CircuitBreaker × List Int × Option Json × Nat
  | 0, _, _, job, cb, _, _ => (job, cb, [], none, 0)
  | fuel + 1, r, mr, job, cb, times, envs =>
    let res := evaluate_cv_task r mr job cb (times r) (envs r)
    match res.retryCountdown with
    | some c =>
      let (j, b, cs, ret, n) := runAttempts fuel (r + 1) mr res.job res.cb times envs
      (j, b, c :: cs, ret, n + 1)
    | none => (res.job, res.cb, [], res.returned, 1)

/-! ## Concrete inputs used by counterexamples and witnesses -/

/-- A freshly created evaluation request: `Pending`, no payload fields. -/
def pendingRec : JobRecord := ⟨STATUS_PENDING, none, none, none⟩

/-- A well-formed AI completion: a fenced JSON block with all four required
fields. -/
def okBody : String :=
  "\x60\x60\x60json\n\x7b\"score\": 72, \"rationale\": \"good\", \"matches\": [\"api\"], \"gaps\": [\"cloud\"]\x7d\n\x60\x60\x60"

/-- The parsed value of `okBody` (the score already numeric, so the `float`
coercion writes back the same value). -/
def okParsed : Json :=
  .obj [("score", .num 72), ("rationale", .str "good"),
        ("matches", .arr [.str "api"]), ("gaps", .arr [.str "cloud"])]

/-- An AI completion whose outer JSON object embeds, inside its `rationale`
string, a fenced JSON block carrying its own `score`, `matches` and `gaps`.
The outer object also has its own `score`, `matches` and `gaps`. -/
def c3Body : String :=
  "\x7b\"score\": 10, \"rationale\": \"intro \x60\x60\x60json\\n\x7b\\\"score\\\": 50, \\\"matches\\\": [\\\"go\\\"], \\\"gaps\\\": []\x7d\\n\x60\x60\x60 done\", \"matches\": [\"x\"], \"gaps\": [\"y\"]\x7d"

/-- The nested block embedded in `c3Body`'s rationale, as parsed. -/
def c3Nested : Json :=
  .obj [("score", .num 50), ("matches", .arr [.str "go"]), ("gaps", .arr [])]

/-- The decoded rationale string of `c3Body` (real newlines and quotes). -/
def wRationale : String :=
  "intro \x60\x60\x60json\n\x7b\"score\": 50, \"matches\": [\"go\"], \"gaps\": []\x7d\n\x60\x60\x60 done"

/-- Outer entries of `c3Body` as parsed. -/
def wOuterEntries : List (String × Json) :=
  [("score", .num 10), ("rationale", .str wRationale),
   ("matches", .arr [.str "x"]), ("gaps", .arr [.str "y"])]

/-- The fenced group extracted from `wRationale`. -/
def wGroup : String :=
  "\x7b\"score\": 50, \"matches\": [\"go\"], \"gaps\": []\x7d"

/-- A rationale string embedding a fenced block that has a `score` and `gaps`
but no `matches` (the merge branch of the nested handling). -/
def mRationale : String :=
  "x \x60\x60\x60json\n\x7b\"score\": 50, \"gaps\": [\"g\"]\x7d\n\x60\x60\x60 y"

/-- Outer entries whose rationale is `mRationale`. -/
def mOuterEntries : List (String × Json) :=
  [("score", .num 10), ("rationale", .str mRationale),
   ("matches", .arr [.str "x"]), ("gaps", .arr [.str "y"])]

/-- The nested block embedded in `mRationale`, as parsed. -/
def mNested : Json :=
  .obj [("score", .num 50), ("gaps", .arr [.str "g"])]

/-- The fenced group extracted from `mRationale`. -/
def mGroup : String :=
  "\x7b\"score\": 50, \"gaps\": [\"g\"]\x7d"

/-- Whether an `Except` is a normal return (used to state that the
orchestrator never propagates an exception). -/
def exceptIsOk : Except PyErr Json → Bool
  | .ok _ => true
  | .error _ => false

/-- A completion whose JSON lacks the required `score` field. -/
def missingScoreBody : String := "\x7b\"rationale\": \"r\"\x7d"

/-- A completion whose `score` cannot be coerced by `float`. -/
def badScoreBody : String :=
  "\x7b\"score\": \"abc\", \"rationale\": \"r\", \"matches\": [], \"gaps\": []\x7d"

/-- C2: starting from the initial breaker (Closed, failureCount 0), after
exactly 5 consecutive failed calls the state is Open, and a further call made
while the recovery timeout (60 s) has not yet elapsed since the last failure
is rejected with `CircuitBreakerOpenException`, leaving the breaker unchanged
and never invoking the wrapped operation. -/
theorem C2_breaker_opens_after_threshold
    (t1 t2 t3 t4 t5 t6 : Int) (f : Bool) (h : t6 - t5 < 60) :
    (failCalls ai_circuit_breaker [t1, t2, t3, t4, t5]).state = .opened ∧
    (failCalls ai_circuit_breaker [t1, t2, t3, t4, t5]).call t6 f =
      (failCalls ai_circuit_breaker [t1, t2, t3, t4, t5], .rejected) := by
  have h5 : failCalls ai_circuit_breaker [t1, t2, t3, t4, t5] =
      { failure_threshold := 5, recovery_timeout := 60, success_threshold := 3,
        timeout := 30, state := .opened, failure_count := 5, success_count := 0,
        last_failure_time := some t5 } := rfl
  refine ⟨by rw [h5], ?_⟩
  rw [h5]
  have hr : decide ((60 : Int) ≤ t6 - t5) = false := by
    simp only [decide_eq_false_iff_not, not_le]
    omega
  simp [CircuitBreaker.call, gate, shouldAttemptReset, hr]

/-- Witness for C2 at concrete times 0,…,0 and a sixth call at time 10. -/
theorem C2_breaker_opens_after_threshold_witness :
    (failCalls ai_circuit_breaker [0, 0, 0, 0, 0]).state = .opened ∧
    (failCalls ai_circuit_breaker [0, 0, 0, 0, 0]).call 10 true =
      (failCalls ai_circuit_breaker [0, 0, 0, 0, 0], .rejected) :=
  C2_breaker_opens_after_threshold 0 0 0 0 0 10 true (by decide)

/-- C6: for a breaker that is Open with last failure at time `t`, once the
recovery timeout (60 s) has elapsed the next call passes the admission gate in
the Half-Open state (so the operation is attempted); three consecutive
successful calls from that point return the breaker to Closed with both
counters reset; and a single failed call while Half-Open returns it to
Open. -/
theorem C6_breaker_recovery
    (cb : CircuitBreaker) (t now n2 n3 : Int)
    (hs : cb.state = .opened)
    (hl : cb.last_failure_time = some t)
    (hsc : cb.success_count = 0)
    (hst : cb.success_threshold = 3)
    (hrt : cb.recovery_timeout = 60)
    (helapsed : 60 ≤ now - t) :
    gate cb now = some { cb with state := .halfOpen } ∧
    (∀ f, (cb.call now f).2 ≠ CallOutcome.rejected) ∧
    (succCalls cb [now, n2, n3]).state = .closed ∧
    (succCalls cb [now, n2, n3]).failure_count = 0 ∧
    (succCalls cb [now, n2, n3]).success_count = 0 ∧
    ((cb.call now true).1).state = .opened := by
  obtain ⟨ft, rt, st, tmo, s, fc, sc, lft⟩ := cb
  simp only at hs hl hsc hst hrt
  subst hs hl hsc hst hrt
  have hr : decide ((60 : Int) ≤ now - t) = true := by
    simpa using helapsed
  refine ⟨?_, ?_, ?_, ?_, ?_, ?_⟩ <;>
    simp [succCalls, CircuitBreaker.call, gate, shouldAttemptReset,
      onSuccess, onFailure, hr]

/-- Witness for C6 at a concrete Open breaker with last failure at time 0 and
calls at times 60, 61, 62. -/
theorem C6_breaker_recovery_witness :
    (gate cb0 60 = some { cb0 with state := .halfOpen } ∧
     (∀ f, (cb0.call 60 f).2 ≠ CallOutcome.rejected) ∧
     (succCalls cb0 [60, 61, 62]).state = .closed ∧
     (succCalls cb0 [60, 61, 62]).failure_count = 0 ∧
     (succCalls cb0 [60, 61, 62]).success_count = 0 ∧
     ((cb0.call 60 true).1).state = .opened) :=
  C6_breaker_recovery cb0 0 60 61 62 rfl rfl rfl rfl rfl (by decide)

/-- C10: a call made while the breaker is Open and the recovery timeout has
not yet elapsed since the last failure is rejected and leaves the whole
breaker record unchanged (state, failure_count, success_count,
last_failure_time). -/
theorem C10_open_rejection_frame
    (cb : CircuitBreaker) (now t : Int) (f : Bool)
    (h1 : cb.state = .opened)
    (h2 : cb.last_failure_time = some t)
    (h3 : now - t < cb.recovery_timeout) :
    cb.call now f = (cb, .rejected) := by
  have hr : decide (cb.recovery_timeout ≤ now - t) = false := by
    simp only [decide_eq_false_iff_not, not_le]
    omega
  simp [CircuitBreaker.call, gate, shouldAttemptReset, h1, h2, hr]

/-- Witness for C10: a concrete Open breaker rejects a call made 10 seconds
after its last failure. -/
theorem C10_open_rejection_frame_witness :
    cb0.call 10 true = (cb0, .rejected) :=
  C10_open_rejection_frame cb0 10 0 true rfl rfl (by decide)

/-- C7: when every attempt fails by a raised exception (here: the document
fetch), the retry loop starting at retry count 0 with `max_retries = 3` runs
exactly 4 attempts, schedules re-invocations with countdowns
`60 * 2 ** retries` for retries 0, 1 and 2 (60 s, 120 s, 240 s), persists the
job as `Failed` with the error message, returns the error payload from the
final attempt, and schedules no attempt beyond `max_retries`. -/
theorem C7_retry_backoff (m : String) (rec : JobRecord) (cb : CircuitBreaker)
    (times : Nat → Int) (ext : Option String) (tr : Transport) :
    runAttempts 10 0 3 (some rec) cb times (fun _ => ⟨.error m, ext, tr⟩) =
      (some { rec with status := STATUS_FAILED, error_message := some (.str m) },
       cb, [60, 120, 240], some (.obj [("error", .str m)]), 4) := by
  rfl

/-- C9 counterexample: invoking the worker with an id for which no record
exists does land in the generic except block — the `Failed` update is a no-op
on the missing record, but a retry with countdown 60 IS scheduled,
contradicting the claim that a missing job is not retried. -/
theorem C9_counterexample :
    evaluate_cv_task 0 3 none ai_circuit_breaker 0 ⟨.ok (), some "cv", .timeout⟩ =
      ⟨none, ai_circuit_breaker, some 60, none⟩ := by
  rfl

/-- C9 amended: a missing job record raises `DoesNotExist` into the generic
except block: no persisted state changes (every update on the missing record
is a no-op) and the breaker is untouched, but the invocation is retried like
any other error — with countdown `60 * 2 ** retries` while
`retries < max_retries`, and after exhaustion it returns the error payload
with the `DoesNotExist` message. -/
theorem C9_amended_missing_job_retried
    (r : Nat) (cb : CircuitBreaker) (now : Int) (env : AttemptEnv) :
    (evaluate_cv_task r 3 none cb now env).job = none ∧
    (evaluate_cv_task r 3 none cb now env).cb = cb ∧
    (r < 3 →
      (evaluate_cv_task r 3 none cb now env).retryCountdown = some ((60 : Int) * 2 ^ r) ∧
      (evaluate_cv_task r 3 none cb now env).returned = none) ∧
    (¬ r < 3 →
      (evaluate_cv_task r 3 none cb now env).retryCountdown = none ∧
      (evaluate_cv_task r 3 none cb now env).returned =
        some (.obj [("error", .str doesNotExistMsg)])) := by
  by_cases hr : r < 3 <;>
    simp [evaluate_cv_task, taskExceptBlock, hr]

/-- Witness for C9 amended at retry counts 0 and 3. -/
theorem C9_amended_missing_job_retried_witness :
    ((evaluate_cv_task 0 3 none ai_circuit_breaker 0 ⟨.ok (), none, .timeout⟩).job = none ∧
      (evaluate_cv_task 0 3 none ai_circuit_breaker 0 ⟨.ok (), none, .timeout⟩).retryCountdown =
        some ((60 : Int) * 2 ^ 0)) ∧
    (evaluate_cv_task 3 3 none ai_circuit_breaker 0 ⟨.ok (), none, .timeout⟩).retryCountdown = none :=
  ⟨⟨(C9_amended_missing_job_retried 0 ai_circuit_breaker 0 ⟨.ok (), none, .timeout⟩).1,
    ((C9_amended_missing_job_retried 0 ai_circuit_breaker 0 ⟨.ok (), none, .timeout⟩).2.2.1
      (by decide)).1⟩,
   ((C9_amended_missing_job_retried 3 ai_circuit_breaker 0 ⟨.ok (), none, .timeout⟩).2.2.2
      (by decide)).1⟩

/-- C1 counterexample: an extraction failure on the very first attempt
(retries = 0 < maxRetries = 3) is returned by the orchestrator as an error
dict, so the worker persists `Failed` and returns WITHOUT scheduling any
retry (`retryCountdown = none`) — the error kind becomes terminally Failed
before the retry budget is consumed, contradicting the claim that every error
kind is retried until `maxRetries`. -/
theorem C1_counterexample :
    evaluate_cv_task 0 3 (some pendingRec) ai_circuit_breaker 0 ⟨.ok (), none, .timeout⟩ =
      ⟨some ⟨STATUS_FAILED, some (serviceErrorDict "Failed to extract text from CV"),
             some (.num 0), some (.str "Failed to extract text from CV")⟩,
       ai_circuit_breaker, none, some (serviceErrorDict "Failed to extract text from CV")⟩ := by
  rfl

/-- C1 amended: only errors raised as exceptions into the worker (document
fetch / record lookup) follow the retry policy — persisted `Failed` with the
message, retry scheduled with countdown `60 * 2 ** retries` while
`retries < maxRetries`.  Errors captured by the orchestrator's catch-all and
returned as error dicts — extraction failure, upstream AI timeout, malformed
AI response, circuit-breaker rejection — are persisted `Failed` with the
error message (and the error dict as payload) and are NOT retried at any
retry count. -/
theorem C1_amended_retry_policy :
    (∀ (r : Nat) (m : String) (rec : JobRecord) (cb : CircuitBreaker) (now : Int)
        (ext : Option String) (tr : Transport), r < 3 →
      (evaluate_cv_task r 3 (some rec) cb now ⟨.error m, ext, tr⟩).retryCountdown =
        some ((60 : Int) * 2 ^ r) ∧
      (evaluate_cv_task r 3 (some rec) cb now ⟨.error m, ext, tr⟩).job =
        some { rec with status := STATUS_FAILED, error_message := some (.str m) }) ∧
    (∀ (r : Nat) (rec : JobRecord) (cb : CircuitBreaker) (now : Int) (tr : Transport),
      (evaluate_cv_task r 3 (some rec) cb now ⟨.ok (), none, tr⟩).retryCountdown = none ∧
      (evaluate_cv_task r 3 (some rec) cb now ⟨.ok (), none, tr⟩).job =
        some { rec with
               status := STATUS_FAILED
               ai_response := some (serviceErrorDict "Failed to extract text from CV")
               score := some (.num 0)
               error_message := some (.str "Failed to extract text from CV") }) ∧
    (∀ (r : Nat) (rec : JobRecord) (cb : CircuitBreaker) (now : Int),
        cb.state = .closed →
      (evaluate_cv_task r 3 (some rec) cb now
          ⟨.ok (), some "cv text", .timeout⟩).retryCountdown = none ∧
      (evaluate_cv_task r 3 (some rec) cb now ⟨.ok (), some "cv text", .timeout⟩).job =
        some { rec with
               status := STATUS_FAILED
               ai_response := some (serviceErrorDict "AI service timeout")
               score := some (.num 0)
               error_message := some (.str "AI service timeout") }) ∧
    (∀ (r : Nat) (rec : JobRecord) (cb : CircuitBreaker) (now : Int),
        cb.state = .closed →
      (evaluate_cv_task r 3 (some rec) cb now
          ⟨.ok (), some "cv text", .ok "garbage"⟩).retryCountdown = none ∧
      (evaluate_cv_task r 3 (some rec) cb now ⟨.ok (), some "cv text", .ok "garbage"⟩).job =
        some { rec with
               status := STATUS_FAILED
               ai_response := some (serviceErrorDict
                 "AI evaluation failed: AI returned invalid JSON response that could not be parsed")
               score := some (.num 0)
               error_message := some (.str
                 "AI evaluation failed: AI returned invalid JSON response that could not be parsed") }) ∧
    (∀ (r : Nat) (rec : JobRecord) (cb : CircuitBreaker) (now t : Int),
        cb.state = .opened → cb.last_failure_time = some t →
        now - t < cb.recovery_timeout →
      (evaluate_cv_task r 3 (some rec) cb now
          ⟨.ok (), some "cv text", .timeout⟩).retryCountdown = none ∧
      (evaluate_cv_task r 3 (some rec) cb now ⟨.ok (), some "cv text", .timeout⟩).job =
        some { rec with
               status := STATUS_FAILED
               ai_response := some (serviceErrorDict
                 "AI service temporarily unavailable - circuit breaker activated")
               score := some (.num 0)
               error_message := some (.str
                 "AI service temporarily unavailable - circuit breaker activated") }) := by
  refine ⟨?_, ?_, ?_, ?_, ?_⟩
  · intro r m rec cb now ext tr hr
    exact ⟨by simp [evaluate_cv_task, taskExceptBlock, hr], by simp [evaluate_cv_task, taskExceptBlock, hr]⟩
  · intro r rec cb now tr
    exact ⟨rfl, rfl⟩
  · intro r rec cb now hcb
    obtain ⟨ft, rt, st, tmo, s, fc, sc, lf⟩ := cb
    have hs : s = .closed := hcb
    subst hs
    exact ⟨rfl, rfl⟩
  · intro r rec cb now hcb
    obtain ⟨ft, rt, st, tmo, s, fc, sc, lf⟩ := cb
    have hs : s = .closed := hcb
    subst hs
    exact ⟨rfl, rfl⟩
  · intro r rec cb now t hcb hlf hrt
    obtain ⟨ft, rt, st, tmo, s, fc, sc, lf⟩ := cb
    have hs : s = .opened := hcb
    have hl : lf = some t := hlf
    subst hs
    subst hl
    have hr : decide (rt ≤ now - t) = false := by
      simp only [decide_eq_false_iff_not, not_le]
      exact hrt
    have hgate : gate ⟨ft, rt, st, tmo, .opened, fc, sc, some t⟩ now = none := by
      simp [gate, shouldAttemptReset, hr]
    refine ⟨?_, ?_⟩ <;>
      simp [evaluate_cv_task, CVEvaluationService.evaluate_cv,
        OpenRouterClient.evaluate_cv, hgate, serviceErrorDict, pyErrMsg,
        pyIn, objFind, pyGetItem, pyTruthy, taskFailedBranch]

/-- Witness for C1 amended: all five parts instantiated — a fetch failure at
retry count 0 schedules a 60 s retry, while extraction failure, AI timeout,
malformed response and an open breaker all terminate without a retry. -/
theorem C1_amended_retry_policy_witness :
    (evaluate_cv_task 0 3 (some pendingRec) ai_circuit_breaker 0
        ⟨.error "boom", none, .timeout⟩).retryCountdown = some ((60 : Int) * 2 ^ 0) ∧
    (evaluate_cv_task 1 3 (some pendingRec) ai_circuit_breaker 0
        ⟨.ok (), none, .timeout⟩).retryCountdown = none ∧
    (evaluate_cv_task 1 3 (some pendingRec) ai_circuit_breaker 0
        ⟨.ok (), some "cv text", .timeout⟩).retryCountdown = none ∧
    (evaluate_cv_task 1 3 (some pendingRec) ai_circuit_breaker 0
        ⟨.ok (), some "cv text", .ok "garbage"⟩).retryCountdown = none ∧
    (evaluate_cv_task 1 3 (some pendingRec) cb0 10
        ⟨.ok (), some "cv text", .timeout⟩).retryCountdown = none :=
  ⟨(C1_amended_retry_policy.1 0 "boom" pendingRec ai_circuit_breaker 0 none .timeout
      (by decide)).1,
   (C1_amended_retry_policy.2.1 1 pendingRec ai_circuit_breaker 0 .timeout).1,
   (C1_amended_retry_policy.2.2.1 1 pendingRec ai_circuit_breaker 0 rfl).1,
   (C1_amended_retry_policy.2.2.2.1 1 pendingRec ai_circuit_breaker 0 rfl).1,
   (C1_amended_retry_policy.2.2.2.2 1 pendingRec cb0 10 0 rfl rfl (by decide)).1⟩

/-- C8 counterexample: a job persisted as `Failed` through the error-dict
branch carries a result payload after all — `ai_response` holds the error
dict and `score` holds 0.0 — contradicting the claim that the structured
payload is present only when `status == Completed`. -/
theorem C8_counterexample :
    (evaluate_cv_task 0 3 (some pendingRec) ai_circuit_breaker 0
        ⟨.ok (), none, .timeout⟩).job =
      some ⟨STATUS_FAILED, some (serviceErrorDict "Failed to extract text from CV"),
            some (.num 0), some (.str "Failed to extract text from CV")⟩ := by
  rfl

/-- C8 amended: the payload fields follow the branch that persisted the
status — a `Completed` update stores the result dict and score and clears
`error_message`; a `Failed` update from the error-dict branch stores the
error dict as `ai_response` together with its score; a `Failed` update from
the exception branch writes only `status` and `error_message`, leaving any
prior `ai_response`/`score` untouched. -/
theorem C8_amended_result_payload :
    (∀ (r : Nat) (rec : JobRecord) (cb : CircuitBreaker) (now : Int),
        cb.state = .closed →
      (evaluate_cv_task r 3 (some rec) cb now ⟨.ok (), some "cv text", .ok okBody⟩).job =
        some { rec with
               status := STATUS_COMPLETED
               ai_response := some okParsed
               score := some (.num 72)
               error_message := none }) ∧
    (∀ (r : Nat) (rec : JobRecord) (cb : CircuitBreaker) (now : Int) (tr : Transport),
      (evaluate_cv_task r 3 (some rec) cb now ⟨.ok (), none, tr⟩).job =
        some { rec with
               status := STATUS_FAILED
               ai_response := some (serviceErrorDict "Failed to extract text from CV")
               score := some (.num 0)
               error_message := some (.str "Failed to extract text from CV") }) ∧
    (∀ (r : Nat) (m : String) (rec : JobRecord) (cb : CircuitBreaker) (now : Int)
        (ext : Option String) (tr : Transport),
      (evaluate_cv_task r 3 (some rec) cb now ⟨.error m, ext, tr⟩).job =
        some { rec with status := STATUS_FAILED, error_message := some (.str m) }) := by
  refine ⟨?_, ?_, ?_⟩
  · intro r rec cb now hcb
    obtain ⟨ft, rt, st, tmo, s, fc, sc, lf⟩ := cb
    have hs : s = .closed := hcb
    subst hs
    rfl
  · intro r rec cb now tr
    rfl
  · intro r m rec cb now ext tr
    by_cases hr : r < 3 <;> simp [evaluate_cv_task, taskExceptBlock, hr]

/-- Witness for C8 amended: the three persisted shapes at concrete inputs. -/
theorem C8_amended_result_payload_witness :
    (evaluate_cv_task 0 3 (some pendingRec) ai_circuit_breaker 0
        ⟨.ok (), some "cv text", .ok okBody⟩).job =
      some { pendingRec with
             status := STATUS_COMPLETED
             ai_response := some okParsed
             score := some (.num 72)
             error_message := none } ∧
    (evaluate_cv_task 0 3 (some pendingRec) ai_circuit_breaker 0
        ⟨.ok (), none, .timeout⟩).job =
      some { pendingRec with
             status := STATUS_FAILED
             ai_response := some (serviceErrorDict "Failed to extract text from CV")
             score := some (.num 0)
             error_message := some (.str "Failed to extract text from CV") } ∧
    (evaluate_cv_task 0 3 (some pendingRec) ai_circuit_breaker 0
        ⟨.error "boom", none, .timeout⟩).job =
      some { pendingRec with
             status := STATUS_FAILED
             error_message := some (.str "boom") } :=
  ⟨C8_amended_result_payload.1 0 pendingRec ai_circuit_breaker 0 rfl,
   C8_amended_result_payload.2.1 0 pendingRec ai_circuit_breaker 0 .timeout,
   C8_amended_result_payload.2.2 0 "boom" pendingRec ai_circuit_breaker 0 none .timeout⟩

/-- C3 counterexample: for a completion whose outer JSON object embeds a
fenced nested block with its own `score` and `matches`, the parser returns
the nested object WHOLESALE — the result has no `rationale` field at all, so
fields present only in the outer object (its rationale text, its own
`matches`/`gaps`) are NOT retained, contradicting the merge claim. -/
theorem C3_counterexample :
    parse_ai_response c3Body = .ok (some c3Nested) ∧
    pyIn "rationale" c3Nested = .ok false :=
  ⟨rfl, rfl⟩

/-- C3 amended: when the nested block parsed out of the rationale has both
`score` and `matches`, the parser adopts the nested object wholesale,
discarding every outer field; only when the nested block has `score` but no
`matches` are the nested `score` (and `gaps`, when present) merged over the
outer object's fields, the other outer fields being retained. -/
theorem C3_amended_nested_preference :
    (∀ (kvs : List (String × Json)) (r g : String) (nested : Json),
      objFind kvs "rationale" = some (.str r) →
      (isSubstr fenceJsonStr r || isSubstr fenceStr r) = true →
      searchFenced r = some g →
      jsonLoads (pyStrip g) = some nested →
      pyIn "score" nested = .ok true →
      pyIn "matches" nested = .ok true →
      handleNestedRationale (.obj kvs) = .ok nested) ∧
    (∀ (kvs : List (String × Json)) (r g : String) (nested sv gv : Json),
      objFind kvs "rationale" = some (.str r) →
      (isSubstr fenceJsonStr r || isSubstr fenceStr r) = true →
      searchFenced r = some g →
      jsonLoads (pyStrip g) = some nested →
      pyIn "score" nested = .ok true →
      pyIn "matches" nested = .ok false →
      pyGetItem nested "score" = .ok sv →
      pyIn "gaps" nested = .ok true →
      pyGetItem nested "gaps" = .ok gv →
      handleNestedRationale (.obj kvs) =
        .ok (.obj (objSetEntries (objSetEntries kvs "score" sv) "gaps" gv))) := by
  constructor
  · intro kvs r g nested h1 h2 h3 h4 h5 h6
    simp only [handleNestedRationale, h1, h2, h3, h4, h5, h6, if_true]
    rfl
  · intro kvs r g nested sv gv h1 h2 h3 h4 h5 h6 h7 h8 h9
    simp only [handleNestedRationale, h1, h2, h3, h4, h5, h6, h7, h8, h9, if_true]
    rfl

/-- Witness for C3 amended: the wholesale case on `c3Body`'s outer object and
the merge case on an outer object whose nested block has `score` and `gaps`
but no `matches`. -/
theorem C3_amended_nested_preference_witness :
    handleNestedRationale (.obj wOuterEntries) = .ok c3Nested ∧
    handleNestedRationale (.obj mOuterEntries) =
      .ok (.obj (objSetEntries (objSetEntries mOuterEntries "score" (.num 50))
            "gaps" (.arr [.str "g"]))) :=
  ⟨C3_amended_nested_preference.1 wOuterEntries wRationale wGroup c3Nested
      rfl rfl rfl rfl rfl rfl,
   C3_amended_nested_preference.2 mOuterEntries mRationale mGroup mNested
      (.num 50) (.arr [.str "g"]) rfl rfl rfl rfl rfl rfl rfl rfl rfl⟩

/-- C4 counterexample: when the AI client raises (here: a transport timeout),
the orchestrator does NOT propagate the error — it catches it and returns a
normal error dict, so the caller sees an ordinary return value. -/
theorem C4_counterexample :
    (CVEvaluationService.evaluate_cv ai_circuit_breaker 0 (some "cv text") .timeout).result =
      .ok (serviceErrorDict "AI service timeout") ∧
    (CVEvaluationService.evaluate_cv ai_circuit_breaker 0 (some "cv text") .timeout).aiCalled
      = true :=
  ⟨rfl, rfl⟩

/-- C4 amended: when extraction yields no text the orchestrator immediately
returns the error dict `{'error': 'Failed to extract text from CV',
'score': 0.0}` without invoking the AI client; it never propagates any
exception (every run returns `.ok`); and whenever the AI client raises, the
orchestrator catches the exception and returns `{'error': str(e),
'score': 0.0}` instead. -/
theorem C4_amended_orchestrator_errors :
    (∀ (cb : CircuitBreaker) (now : Int) (tr : Transport),
      CVEvaluationService.evaluate_cv cb now none tr =
        ⟨cb, .ok (serviceErrorDict "Failed to extract text from CV"), false⟩) ∧
    (∀ (cb : CircuitBreaker) (now : Int) (ext : Option String) (tr : Transport),
      exceptIsOk (CVEvaluationService.evaluate_cv cb now ext tr).result = true) ∧
    (∀ (cb cb' : CircuitBreaker) (now : Int) (text : String) (tr : Transport) (e : PyErr),
      text ≠ "" →
      OpenRouterClient.evaluate_cv cb now tr = (cb', .error e) →
      CVEvaluationService.evaluate_cv cb now (some text) tr =
        ⟨cb', .ok (serviceErrorDict (pyErrMsg e)), true⟩) := by
  refine ⟨fun cb now tr => rfl, ?_, ?_⟩
  · intro cb now ext tr
    cases ext with
    | none => rfl
    | some text =>
      by_cases ht : text = ""
      · simp [CVEvaluationService.evaluate_cv, ht, exceptIsOk]
      · rcases hc : OpenRouterClient.evaluate_cv cb now tr with ⟨cb', r⟩
        cases r <;> simp [CVEvaluationService.evaluate_cv, ht, hc, exceptIsOk]
  · intro cb cb' now text tr e ht hc
    simp [CVEvaluationService.evaluate_cv, ht, hc]

/-- Witness for C4 amended: extraction failure returns the error dict with
the AI not called; a run's result is `.ok`; and a circuit-breaker rejection
surfaces as an error dict carrying the breaker's message. -/
theorem C4_amended_orchestrator_errors_witness :
    CVEvaluationService.evaluate_cv ai_circuit_breaker 0 none .timeout =
      ⟨ai_circuit_breaker, .ok (serviceErrorDict "Failed to extract text from CV"), false⟩ ∧
    exceptIsOk (CVEvaluationService.evaluate_cv ai_circuit_breaker 0 (some "cv") .timeout).result
      = true ∧
    CVEvaluationService.evaluate_cv cb0 10 (some "cv") .timeout =
      ⟨cb0, .ok (serviceErrorDict
        "AI service temporarily unavailable - circuit breaker activated"), true⟩ :=
  ⟨C4_amended_orchestrator_errors.1 ai_circuit_breaker 0 .timeout,
   C4_amended_orchestrator_errors.2.1 ai_circuit_breaker 0 (some "cv") .timeout,
   C4_amended_orchestrator_errors.2.2 cb0 cb0 10 "cv" .timeout
     (.exc "AI service temporarily unavailable - circuit breaker activated")
     (by decide) rfl⟩

/-- C5 counterexample: a malformed completion and a transport timeout are
raised with the SAME exception class (`Exception`) — there is no distinct
`MalformedResponseError` kind a caller could dispatch on; only the message
strings differ. -/
theorem C5_counterexample :
    (OpenRouterClient.evaluate_cv ai_circuit_breaker 0 (.ok "garbage")).2 =
      .error (.exc
        "AI evaluation failed: AI returned invalid JSON response that could not be parsed") ∧
    (OpenRouterClient.evaluate_cv ai_circuit_breaker 0 .timeout).2 =
      .error (.exc "AI service timeout") ∧
    pyErrClass (.exc
        "AI evaluation failed: AI returned invalid JSON response that could not be parsed") =
      pyErrClass (.exc "AI service timeout") :=
  ⟨rfl, rfl, rfl⟩

/-- Every error raised out of `_openrouter_evaluation` is a plain
`Exception`. -/
theorem openrouterErrClass (t : Transport) (e : PyErr)
    (h : openrouterEvaluation t = .error e) : pyErrClass e = "Exception" := by
  cases t with
  | timeout =>
    simp only [openrouterEvaluation, Except.error.injEq] at h
    subst h; rfl
  | reqError m =>
    simp only [openrouterEvaluation, Except.error.injEq] at h
    subst h; rfl
  | ok content =>
    simp only [openrouterEvaluation] at h
    repeat' split at h
    all_goals
      first
      | exact Except.noConfusion h
      | (injection h with h2; subst h2; rfl)

/-- C5 amended: every failure of the AI client — parse failure, missing
required field, non-coercible score, transport timeout, transport error, and
even the breaker's rejection after its re-raise — reaches the caller as the
single class `Exception`, distinguishable only by message: malformed-response
failures carry the prefix `AI evaluation failed: `, transport failures the
messages `AI service timeout` / `AI service error: …`. -/
theorem C5_amended_error_kinds :
    (∀ (cb : CircuitBreaker) (now : Int) (t : Transport) (e : PyErr),
      (OpenRouterClient.evaluate_cv cb now t).2 = .error e → pyErrClass e = "Exception") ∧
    openrouterEvaluation .timeout = .error (.exc "AI service timeout") ∧
    (∀ m, openrouterEvaluation (.reqError m) = .error (.exc ("AI service error: " ++ m))) ∧
    (∀ body, parse_ai_response (pyStrip body) = .ok none →
      openrouterEvaluation (.ok body) =
        .error (wrapFail "AI returned invalid JSON response that could not be parsed")) ∧
    (∀ body p, parse_ai_response (pyStrip body) = .ok (some p) → pyTruthy p = true →
      pyIn "score" p = .ok false →
      openrouterEvaluation (.ok body) =
        .error (wrapFail "AI response missing required \x27score\x27 field")) ∧
    (∀ body p sv, parse_ai_response (pyStrip body) = .ok (some p) → pyTruthy p = true →
      pyIn "score" p = .ok true → pyIn "rationale" p = .ok true →
      pyIn "matches" p = .ok true → pyIn "gaps" p = .ok true →
      pyGetItem p "score" = .ok sv → pyFloat sv = none →
      openrouterEvaluation (.ok body) =
        .error (wrapFail
          ("AI response \x27score\x27 field is not a valid number: " ++ pyStr sv))) ∧
    (∀ m, ∃ rest, pyErrMsg (wrapFail m) = "AI evaluation failed: " ++ rest) := by
  refine ⟨?_, rfl, fun m => rfl, ?_, ?_, ?_, ?_⟩
  · intro cb now t e h
    unfold OpenRouterClient.evaluate_cv at h
    rcases hg : gate cb now with _ | cb'
    · rw [hg] at h
      simp only [Except.error.injEq] at h
      subst h; rfl
    · rw [hg] at h
      cases ho : openrouterEvaluation t with
      | ok j => rw [ho] at h; simp at h
      | error e' =>
        rw [ho] at h
        simp only [Except.error.injEq] at h
        subst h
        exact openrouterErrClass t e' ho
  · intro body hp
    simp only [openrouterEvaluation, hp]
  · intro body p hp htr hs
    simp only [openrouterEvaluation, hp, htr, if_true, hs]
  · intro body p sv hp htr hs hr hm hgp hgi hf
    simp only [openrouterEvaluation, hp, htr, if_true, hs, hr, hm, hgp, hgi, hf]
  · intro m
    exact ⟨m, rfl⟩

/-- Witness for C5 amended: the class claim at the breaker-rejection run, and
the message shapes at concrete malformed completions (`garbage`, a missing
`score`, a string score `"abc"`). -/
theorem C5_amended_error_kinds_witness :
    pyErrClass (.exc "AI service temporarily unavailable - circuit breaker activated")
      = "Exception" ∧
    openrouterEvaluation (.ok "garbage") =
      .error (wrapFail "AI returned invalid JSON response that could not be parsed") ∧
    openrouterEvaluation (.ok missingScoreBody) =
      .error (wrapFail "AI response missing required \x27score\x27 field") ∧
    openrouterEvaluation (.ok badScoreBody) =
      .error (wrapFail
        ("AI response \x27score\x27 field is not a valid number: " ++ pyStr (.str "abc"))) :=
  ⟨C5_amended_error_kinds.1 cb0 10 .timeout
      (.exc "AI service temporarily unavailable - circuit breaker activated") rfl,
   C5_amended_error_kinds.2.2.2.1 "garbage" rfl,
   C5_amended_error_kinds.2.2.2.2.1 missingScoreBody
      (.obj [("rationale", .str "r")]) rfl rfl rfl,
   C5_amended_error_kinds.2.2.2.2.2.1 badScoreBody
      (.obj [("score", .str "abc"), ("rationale", .str "r"),
             ("matches", .arr []), ("gaps", .arr [])])
      (.str "abc") rfl rfl rfl rfl rfl rfl rfl rfl⟩

end CvReader
